import Mathlib

/-!
Verification of the gcalbot repository (Telegram bot managing Google Calendar
sharing) against its natural-language specification.

The embedding models, from the source:
* python dict semantics (`bot_data` / `chat_data` are plain dicts) —
  `pyDictLookup`, `pyDictSet`, `pyDictPop`;
* the sqlite credential layer `engine/sqlite/database.py` —
  `create_credentials`, `credentials_exists`, `delete_credentials`;
* the IPC consumer loop `webauth_callback` of `engine/tg/tg_handlers.py`
  (the spec's Handoff Dispatcher) — `webauth_step`, `webauth_run`;
* the conversation handlers of `engine/tg/tg_handlers.py` —
  `start`, `select_calendar_inline`, `show_share_inline`,
  `add_share_inline_email`, `delete_share_inline_email`, and the direct
  commands `show_share`, `add_share`, `delete_share`, `revoke_authz`.

External collaborators (Telegram API, Google Calendar API, e-mail syntax
validator) are parameters of the handler functions; everything else follows
the source line by line.
-/

namespace GCalBot

/-! ## Python dict semantics

`context.bot_data`, `dispatcher.bot_data` and `context.chat_data` are plain
python dicts.  An association list with unique keys models them; the three
operations used by the source are assignment (`d[k] = v`, overwriting),
lookup, and `d.pop(k)` which removes the first (unique) binding and reports
the value, leaving the dict unchanged when the key is absent (python raises
`KeyError` there; callers in this code base catch it, so the `Option` result
carries the outcome). -/

def pyDictLookup {α β : Type} [DecidableEq α] : List (α × β) → α → Option β
  | [], _ => none
  | (k', v') :: rest, k => if k' = k then some v' else pyDictLookup rest k

def pyDictSet {α β : Type} [DecidableEq α] : List (α × β) → α → β → List (α × β)
  | [], k, v => [(k, v)]
  | (k', v') :: rest, k, v =>
      if k' = k then (k, v) :: rest else (k', v') :: pyDictSet rest k v

def pyDictPop {α β : Type} [DecidableEq α] : List (α × β) → α → Option β × List (α × β)
  | [], _ => (none, [])
  | (k', v') :: rest, k =>
      if k' = k then (some v', rest)
      else
        let r := pyDictPop rest k
        (r.1, (k', v') :: r.2)

/-! ## Correlation store (spec §4.1)

The spec's Correlation Store is the dict `bot_data` mapping the OAuth2 state
string to a chat id.  `register` is `context.bot_data[state] = chat_id`
(tg_handlers.py line 176, inside `start`); `consume` is
`dispatcher.bot_data.pop(state)` (tg_handlers.py line 686, inside
`webauth_callback`). -/

/-- Correlation store: OAuth2 state string → Telegram chat id. -/
abbrev CorrDb := List (String × Int)

/-- `register(token, chatId)` of the spec: `context.bot_data[state] = chat_id`
(tg_handlers.py line 176). Plain dict assignment. -/
def register_state (d : CorrDb) (state : String) (chat_id : Int) : CorrDb :=
  pyDictSet d state chat_id

/-- `consume(token)` of the spec: `dispatcher.bot_data.pop(state)`
(tg_handlers.py line 686). Returns the chat id and the store without the
token; `none` when the token is absent (python: `KeyError`, caught by the
caller). -/
def consume_state (d : CorrDb) (state : String) : Option Int × CorrDb :=
  pyDictPop d state

/-- An interleaving alphabet for register/consume histories on one store. -/
inductive CorrOp
  | register_op (t : String) (c : Int)
  | consume_op (t : String)
deriving DecidableEq, Repr

/-- Run a sequence of correlation-store operations, collecting the result of
every consume in order. -/
def runOps (d : CorrDb) : List CorrOp → CorrDb × List (Option Int)
  | [] => (d, [])
  | .register_op t c :: rest => runOps (register_state d t c) rest
  | .consume_op t :: rest =>
      let p := consume_state d t
      let r := runOps p.2 rest
      (r.1, p.1 :: r.2)

/-! ## Credential store (`engine/sqlite/database.py`)

`GCalendarCred` rows keyed by the unique `chat_id`; an association list with
unique keys models the table. -/

abbrev CredDb := List (Int × String)

/-- Row lookup: `GCalendarCred.get(GCalendarCred.chat_id == chat_id)` as an
`Option` (database.py line 45). -/
def credLookup (db : CredDb) (chat_id : Int) : Option String :=
  pyDictLookup db chat_id

/-- `credentials_exists` (database.py lines 26-34): whether a row for the chat
exists. -/
def credentials_exists (db : CredDb) (chat_id : Int) : Bool :=
  (credLookup db chat_id).isSome

/-- `create_credentials` (database.py lines 15-23): inserts a new row only
when no row for the chat exists; otherwise does nothing. -/
def create_credentials (db : CredDb) (chat_id : Int) (credentials : String) : CredDb :=
  if credentials_exists db chat_id then db else db ++ [(chat_id, credentials)]

/-- `delete_credentials` (database.py lines 60-66): unconditional
`DELETE WHERE chat_id = ?`; removes every row for the chat, no error when
none exists. -/
def delete_credentials (db : CredDb) (chat_id : Int) : CredDb :=
  db.filter (fun r => r.1 != chat_id)

/-! ## Message texts (`engine/tg/tg_messages.py`)

Python `str.format` templates become functions; only the constants the
verified handlers use are embedded.  `str(list(...))` rendering of python is
reproduced by `pyStrList`. -/

def TG_KEYBOARD_ACTIVE : String := "Другая клавиатура всё ещё активна"

def TG_INVALID_ARG_NUM (num : Nat) : String :=
  "Неверное число аргументов, должно быть " ++ toString num

def TG_AUTHZ_URL (url : String) : String :=
  "Для авторизации gcalbot в Google Calendar пройдите, пожалуйста, по ссылке: " ++ url

def TG_AUTH_COMPLETE : String := "Авторизация выполнена успешно"

def TG_AUTH_FAILED : String := "Доступ к календарю не разрешён пользователем"

def TG_CALENDAR_NOT_FOUND (details : String) : String :=
  "Календарь не найден: " ++ details

def TG_USER_ADDED (email access_type calendar : String) : String :=
  "Пользователь " ++ email ++ " получил доступ \x27" ++ access_type ++
    "\x27 к календарю " ++ calendar

def TG_USER_DELETED (email calendar : String) : String :=
  "Отозван доступ пользователя " ++ email ++ " к календарю " ++ calendar

def TG_EMAIL_INVALID : String := "Неверный формат e-mail"

def pyStrList (xs : List String) : String :=
  "[" ++ String.intercalate ", " (xs.map fun s => "\x27" ++ s ++ "\x27") ++ "]"

def TG_ROLE_INVALID (values : List String) : String :=
  "Неверная роль, допустимые значения: " ++ pyStrList values

def TG_REVOKE_AUTHZ : String :=
  "Авторизация бота отозвана. Для возобновления работы вызовите /start, чтобы получить ссылку для авторизации"

def BUTTON_START : String := "В начало"

def BUTTON_BACK : String := "Назад"

def BUTTON_FINISH : String := "Завершить"

def BUTTON_SHOW_SHARE : String := "Показать доступ"

def BUTTON_ADD_SHARE : String := "Добавить доступ"

def BUTTON_DEL_SHARE : String := "Отозвать доступ"

def BUTTON_REVOKE_AUTHZ : String := "Отозвать авторизацию"

def BUTTON_FREE_BUSY : String := "Доступ на чтение (только занято/свободно)"

def BUTTON_READER : String := "Доступ на чтение"

def BUTTON_WRITER : String := "Доступ на запись"

def PROMPT_INITIAL_MENU : String := "Выберите каледарь"

def PROMPT_SHARE_EMAIL (calendar : String) : String :=
  "Введите e-mail, которому нужно предоставить доступ к календарю " ++ calendar

def PROMPT_NOT_EMAIL : String := "Нужно ввести e-mail в качестве параметра"

def PROMPT_DELETE_EMAIL (calendar : String) : String :=
  "Введите e-mail, доступ к календарю " ++ calendar ++ " которого нужно отозвать"

def PROMPT_CHOOSE_ACTION (calendar : String) : String :=
  "Выберите действие для календаря " ++ calendar

def PROMPT_CHOOSE_ROLE (email calendar : String) : String :=
  "Выберите уровень доступа пользователя " ++ email ++ " к календарю " ++ calendar

/-- Google Calendar access-type constants (gcal_handlers.py lines 23-25). -/
def FREE_BUSY_READER : String := "freeBusyReader"

def READER : String := "reader"

def WRITER : String := "writer"

/-- `GCAL_MAP` (tg_messages.py lines 50-54): access role → Russian label. -/
def GCAL_MAP : List (String × String) :=
  [(FREE_BUSY_READER, "только занято/свободно"),
   (READER, "чтение"),
   (WRITER, "запись")]

/-! ## Handoff Dispatcher (`webauth_callback`, tg_handlers.py lines 666-702)

The IPC queue carries arbitrary python objects; the producers
(`engine/fastapi/web.py` and `CustomUpdater._signal_handler`) send dicts with
the keys `state` / `credentials` and the bool poison value.  `IpcData` keeps
the shapes the consumer distinguishes: any bool, any dict (with the two
relevant keys as `Option`s), and any other object (its type name retained
for the log line). -/

inductive IpcData
  | boolMsg (b : Bool)
  | dictMsg (state : Option String) (credentials : Option String)
  | otherMsg (tyName : String)
deriving DecidableEq, Repr

/-- Dispatcher-visible state: the correlation dict `dispatcher.bot_data`,
the sqlite credential table, the chat notifications sent, and the log. -/
structure DispState where
  bot_data : CorrDb
  db : CredDb
  sent : List (Int × String)
  logs : List String
deriving DecidableEq, Repr

def emptyDisp : DispState := ⟨[], [], [], []⟩

/-- Outcome of one iteration of the `while True` receive loop: proceed to the
next message, leave the loop (`break`), or die on an uncaught exception. -/
inductive StepOut
  | cont (s : DispState)
  | exit (s : DispState)
  | crash (s : DispState)
deriving DecidableEq, Repr

/-- One iteration of `webauth_callback` (tg_handlers.py lines 674-702) on one
queue element:
* a bool breaks the loop (line 678);
* a dict: `ipc_data[gcal.STATE_KEY]` (line 684) raises an uncaught
  `KeyError` when the `state` key is missing; otherwise
  `dispatcher.bot_data.pop(state)` is tried (NotFound → logged, `continue`),
  then the `credentials` key decides denied (notify, no record) versus
  granted (`db.create_credentials`, notify);
* any other object is logged and skipped (line 702). -/
def webauth_step (s : DispState) (m : IpcData) : StepOut :=
  match m with
  | .boolMsg _ => .exit s
  | .dictMsg none _ => .crash s
  | .dictMsg (some state) cr =>
      let p := consume_state s.bot_data state
      match p.1 with
      | none =>
          .cont { s with
            logs := s.logs ++ ["No state data found, likely old authorization link was used"] }
      | some chat_id =>
          match cr with
          | none =>
              .cont { s with
                bot_data := p.2,
                logs := s.logs ++
                  ["No authorization data received because user " ++ toString chat_id ++ " denied access"],
                sent := s.sent ++ [(chat_id, TG_AUTH_FAILED)] }
          | some credentials =>
              .cont { s with
                bot_data := p.2,
                db := create_credentials s.db chat_id credentials,
                sent := s.sent ++ [(chat_id, TG_AUTH_COMPLETE)] }
  | .otherMsg tyName =>
      .cont { s with
        logs := s.logs ++ ["Unknown type received from web process" ++ tyName] }

/-- The state after one iteration, whichever way the iteration ended. -/
def stepState (s : DispState) (m : IpcData) : DispState :=
  match webauth_step s m with
  | .cont s' => s'
  | .exit s' => s'
  | .crash s' => s'

/-- Whether one iteration continues the loop. -/
def stepIsCont (s : DispState) (m : IpcData) : Bool :=
  match webauth_step s m with
  | .cont _ => true
  | _ => false

/-- The shutdown sentinel: `type(ipc_data) is bool` (tg_handlers.py line
678). -/
def isShutdown : IpcData → Bool
  | .boolMsg _ => true
  | _ => false

/-- Messages on which line 684 (`ipc_data[gcal.STATE_KEY]`) cannot raise:
everything except a dict lacking the `state` key. -/
def wellShaped : IpcData → Bool
  | .dictMsg none _ => false
  | _ => true

/-- The spec §3 `HandoffMessage` record shapes `Granted`/`Denied`: the dicts
the Callback Receiver actually produces, which always carry the `state`
key (web.py lines 23 and 33). -/
def isHandoffRecord : IpcData → Bool
  | .dictMsg (some _) _ => true
  | _ => false

/-- The receive loop over a finite prefix of the queue: processes elements in
FIFO order until the loop breaks, the thread dies, or the prefix is drained
(the real loop would then block on `ipc_queue.get()`). -/
inductive RunResult
  | blocked (s : DispState)
  | exited (s : DispState) (rest : List IpcData)
  | crashed (s : DispState) (rest : List IpcData)
deriving DecidableEq, Repr

def webauth_run (s : DispState) : List IpcData → RunResult
  | [] => .blocked s
  | m :: rest =>
      match webauth_step s m with
      | .cont s' => webauth_run s' rest
      | .exit s' => .exited s' rest
      | .crash s' => .crashed s' rest

/-! ## Conversation Engine (tg_handlers.py lines 20-37 and 159-663)

The `ConversationHandler` states are module constants `chr 0 .. chr 5` plus
`ConversationHandler.END`; an enumeration with the source's constant names
models them.  python-telegram-bot stores a handler's return value as the
conversation's new current state. -/

inductive PtbState
  | STATE_CALENDAR_SELECTION
  | STATE_ACTION_SELECTION
  | STATE_ADD_SHARE
  | STATE_ADD_SHARE_ROLE
  | STATE_DELETE_SHARE
  | STATE_FINISH
  | STATE_END
deriving DecidableEq, Repr

/-- `CALLBACK_DELIMITER = '#'` (tg_handlers.py line 37). -/
def CALLBACK_DELIMITER : Char := '#'

/-- python `str.split(delim)`: split on every occurrence. -/
def pySplitAux (d : Char) : List Char → List Char → List (List Char)
  | acc, [] => [acc.reverse]
  | acc, c :: cs =>
      if c = d then acc.reverse :: pySplitAux d [] cs else pySplitAux d (c :: acc) cs

def pySplit (s : String) (d : Char) : List String :=
  (pySplitAux d [] s.toList).map List.asString

/-- One inline keyboard button: caption and callback payload. -/
structure Button where
  text : String
  callback_data : String
deriving DecidableEq, Repr

abbrev Keyboard := List (List Button)

/-- `default_keyboard` (tg_handlers.py lines 70-91): back / start / finish. -/
def default_keyboard (calendar : String) : Keyboard :=
  [[⟨BUTTON_BACK, "select_calendar_inline" ++ "#" ++ calendar⟩,
    ⟨BUTTON_START, "start"⟩],
   [⟨BUTTON_FINISH, "finish_conversation"⟩]]

/-- `calendar_keyboard` (tg_handlers.py lines 94-120): show / add / delete /
start / finish for one calendar. -/
def calendar_keyboard (calendar : String) : Keyboard :=
  [[⟨BUTTON_SHOW_SHARE, "show_share_inline" ++ "#" ++ calendar⟩],
   [⟨BUTTON_ADD_SHARE, "add_share_inline" ++ "#" ++ calendar⟩],
   [⟨BUTTON_DEL_SHARE, "delete_share_inline" ++ "#" ++ calendar⟩],
   [⟨BUTTON_START, "start"⟩, ⟨BUTTON_FINISH, "finish_conversation"⟩]]

/-- `add_share_keyboard` (tg_handlers.py lines 123-156): the three role
buttons plus back / start / finish. -/
def add_share_keyboard (calendar username : String) : Keyboard :=
  [[⟨BUTTON_FREE_BUSY, "add_share_inline_freebusy" ++ "#" ++ username⟩],
   [⟨BUTTON_READER, "add_share_inline_reader" ++ "#" ++ username⟩,
    ⟨BUTTON_WRITER, "add_share_inline_writer" ++ "#" ++ username⟩],
   [⟨BUTTON_BACK, "select_calendar_inline" ++ "#" ++ calendar⟩,
    ⟨BUTTON_START, "start"⟩],
   [⟨BUTTON_FINISH, "finish_conversation"⟩]]

/-- The calendar-picker keyboard built inside `start` (tg_handlers.py lines
183-196): one button per calendar, then revoke-authorization / finish. -/
def start_keyboard (calendars : List String) : Keyboard :=
  (calendars.map fun cal => [⟨cal, "select_calendar_inline" ++ "#" ++ cal⟩]) ++
    [[⟨BUTTON_REVOKE_AUTHZ, "revoke_authz_inline"⟩,
      ⟨BUTTON_FINISH, "finish_conversation"⟩]]

/-- Text plus inline keyboard of one Telegram message; Telegram rejects an
edit that leaves both unchanged (`BadRequest`, cf. tg_handlers.py line
213). -/
structure MsgContent where
  text : String
  markup : Option Keyboard
deriving DecidableEq, Repr

/-- The per-chat session dict `context.chat_data` with keys
`initial_msg`, `inline_msg`, `calendar_name` (tg_handlers.py lines 31-34). -/
structure ChatData where
  initial_msg : Option Int := none
  inline_msg : Option Int := none
  calendar_name : Option String := none
deriving DecidableEq, Repr

/-- One outgoing `send_message` call. -/
structure SentMsg where
  chat : Int
  text : String
  reply_to : Option Int := none
  markup : Option Keyboard := none
deriving DecidableEq, Repr

/-- A handler run either returns a value or lets an exception escape to the
python-telegram-bot dispatch layer (which then leaves the conversation state
untouched). -/
inductive HandlerOutcome (α : Type)
  | ok (value : α)
  | raised
deriving DecidableEq, Repr

/-- How `/start` arrived (tg_handlers.py line 198): as a typed command
(`update.message` carries the invoking message id) or as the start button
(callback query on the message whose current content is given). -/
inductive StartUpdate
  | message (message_id : Int)
  | callback (current : MsgContent)
deriving DecidableEq, Repr

structure StartResult where
  bot_data : CorrDb
  chat_data : ChatData
  ret : PtbState
  sent : List SentMsg
  edited : Bool
deriving DecidableEq, Repr

/-- `start` (tg_handlers.py lines 159-219).  Parameters stand for the
collaborators: `db` the credential table, `authz` the
`gcal.get_authz_link()` pair (url, state), `calendars` the
`gcal.get_calendars` result, `new_msg_id` the id Telegram assigns to the
freshly sent prompt message.  Control flow, line by line:
no credentials → register the state token and send the authorization URL,
conversation ends; otherwise build the calendar keyboard; typed command with
an active keyboard → only a redirect reply to the existing prompt; typed
command without one → send prompt and record both message ids; button →
edit in place, swallowing the redundant-edit `BadRequest` (lines 214-217).
The returned `PtbState` is stored by the dispatch layer as the
conversation's new state. -/
def start (db : CredDb) (authz : String × String) (calendars : List String)
    (bot_data : CorrDb) (cd : ChatData) (chat_id : Int) (upd : StartUpdate)
    (new_msg_id : Int) : StartResult :=
  if credentials_exists db chat_id = false then
    { bot_data := register_state bot_data authz.2 chat_id,
      chat_data := cd,
      ret := .STATE_END,
      sent := [{ chat := chat_id, text := TG_AUTHZ_URL authz.1 }],
      edited := false }
  else
    let reply_markup := start_keyboard calendars
    match upd with
    | .message message_id =>
        match cd.inline_msg with
        | some reply_to =>
            { bot_data := bot_data, chat_data := cd,
              ret := .STATE_CALENDAR_SELECTION,
              sent := [{ chat := chat_id, text := TG_KEYBOARD_ACTIVE, reply_to := some reply_to }],
              edited := false }
        | none =>
            { bot_data := bot_data,
              chat_data := { cd with initial_msg := some message_id, inline_msg := some new_msg_id },
              ret := .STATE_CALENDAR_SELECTION,
              sent := [{ chat := chat_id, text := PROMPT_INITIAL_MENU, markup := some reply_markup }],
              edited := false }
    | .callback current =>
        { bot_data := bot_data, chat_data := cd,
          ret := .STATE_CALENDAR_SELECTION,
          sent := [],
          edited := if (⟨PROMPT_INITIAL_MENU, some reply_markup⟩ : MsgContent) = current then false else true }

/-- `select_calendar_inline` (tg_handlers.py lines 453-467): split the
callback payload, render the action keyboard for the calendar and edit the
prompt message.  The edit is NOT wrapped in try/except: when the new content
equals the current one Telegram raises `BadRequest` and it escapes. -/
def select_calendar_inline (data : String) (current : MsgContent) :
    HandlerOutcome (PtbState × MsgContent) :=
  match pySplit data CALLBACK_DELIMITER with
  | [_, calendar] =>
      let c : MsgContent := ⟨PROMPT_CHOOSE_ACTION calendar, some (calendar_keyboard calendar)⟩
      if c = current then .raised else .ok (.STATE_ACTION_SELECTION, c)
  | _ => .raised

/-- `show_share_inline` (tg_handlers.py lines 470-485).  `gw` abstracts
`__show_share` (lines 261-279): `.ok text` is the formatted ACL listing,
`.error detail` an `HttpError` from the Google Calendar API.  Neither the
gateway call nor the edit is wrapped in try/except, so both failure modes
escape the handler. -/
def show_share_inline (data : String) (gw : Except String String)
    (current : MsgContent) : HandlerOutcome (PtbState × MsgContent) :=
  match pySplit data CALLBACK_DELIMITER with
  | [_, calendar] =>
      match gw with
      | .error _ => .raised
      | .ok text =>
          let c : MsgContent := ⟨text, some (default_keyboard calendar)⟩
          if c = current then .raised else .ok (.STATE_ACTION_SELECTION, c)
  | _ => .raised

structure EmailResult where
  chat_data : ChatData
  ret : PtbState
  content : MsgContent
  edited : Bool
deriving DecidableEq, Repr

/-- `add_share_inline_email` (tg_handlers.py lines 505-537).  `validEmail`
abstracts `validate_email(..., check_format=True, ...)`.  Missing session
keys raise (`KeyError` on `chat_data[...]`).  Invalid e-mail: re-prompt by
editing the prompt message inside try/except `BadRequest` (redundant edits
swallowed), stay in `STATE_ADD_SHARE`, session untouched.  Valid e-mail:
render the role keyboard (edit NOT wrapped) and move to
`STATE_ADD_SHARE_ROLE`; `calendar_name` stays cached. -/
def add_share_inline_email (validEmail : String → Bool) (cd : ChatData)
    (text : String) (current : MsgContent) : HandlerOutcome EmailResult :=
  match cd.inline_msg, cd.calendar_name with
  | some _, some calendar =>
      if validEmail text = false then
        let c : MsgContent := ⟨PROMPT_NOT_EMAIL, some (default_keyboard calendar)⟩
        .ok { chat_data := cd, ret := .STATE_ADD_SHARE, content := c,
              edited := if c = current then false else true }
      else
        let c : MsgContent := ⟨PROMPT_CHOOSE_ROLE text calendar,
                               some (add_share_keyboard calendar text)⟩
        if c = current then .raised
        else .ok { chat_data := cd, ret := .STATE_ADD_SHARE_ROLE, content := c, edited := true }
  | _, _ => .raised

/-- `delete_share_inline_email` (tg_handlers.py lines 592-625).  Same e-mail
gate as `add_share_inline_email`; on a valid e-mail `__delete_share` is
called (abstracted by `gw`; an `HttpError` escapes — no try/except), the
cached `calendar_name` is popped and the confirmation rendered (edit NOT
wrapped), returning `STATE_ACTION_SELECTION`. -/
def delete_share_inline_email (validEmail : String → Bool)
    (gw : Except String Unit) (cd : ChatData) (text : String)
    (current : MsgContent) : HandlerOutcome EmailResult :=
  match cd.inline_msg, cd.calendar_name with
  | some _, some calendar =>
      if validEmail text = false then
        let c : MsgContent := ⟨PROMPT_NOT_EMAIL, some (default_keyboard calendar)⟩
        .ok { chat_data := cd, ret := .STATE_DELETE_SHARE, content := c,
              edited := if c = current then false else true }
      else
        match gw with
        | .error _ => .raised
        | .ok _ =>
            let c : MsgContent := ⟨TG_USER_DELETED text calendar, some (default_keyboard calendar)⟩
            if c = current then .raised
            else .ok { chat_data := { cd with calendar_name := none },
                       ret := .STATE_ACTION_SELECTION, content := c, edited := true }
  | _, _ => .raised

/-! ## Direct (non-dialogue) commands (tg_handlers.py lines 327-450)

Each returns the list of reply texts sent to the chat.  The gateway helpers
`__show_share` / `__add_share` / `__delete_share` are abstracted by an
`Except`: `.error detail` is an `HttpError` whose `error_details` the
handler formats into `TG_CALENDAR_NOT_FOUND`; these three handlers wrap the
gateway call in try/except and reply instead of raising.  They never touch
`chat_data` or any conversation state. -/

/-- `show_share` (tg_handlers.py lines 340-363): one argument, then the
listing or the provider error. -/
def show_share (args : List String) (gw : Except String String) : List String :=
  match args with
  | [_calendar] =>
      match gw with
      | .error e => [TG_CALENDAR_NOT_FOUND e]
      | .ok text => [text]
  | _ => [TG_INVALID_ARG_NUM 1]

/-- `add_share` (tg_handlers.py lines 366-405): three arguments, e-mail
format check, role check against `GCAL_MAP`, then the grant or the provider
error. -/
def add_share (args : List String) (validEmail : String → Bool)
    (gw : Except String Unit) : List String :=
  match args with
  | [calendar, email, role] =>
      if validEmail email = false then [TG_EMAIL_INVALID]
      else if (GCAL_MAP.map Prod.fst).contains role = false then
        [TG_ROLE_INVALID (GCAL_MAP.map Prod.fst)]
      else
        match gw with
        | .error e => [TG_CALENDAR_NOT_FOUND e]
        | .ok _ => [TG_USER_ADDED email role calendar]
  | _ => [TG_INVALID_ARG_NUM 3]

/-- `delete_share` (tg_handlers.py lines 408-439): two arguments, e-mail
format check, then the revocation or the provider error. -/
def delete_share (args : List String) (validEmail : String → Bool)
    (gw : Except String Unit) : List String :=
  match args with
  | [calendar, email] =>
      if validEmail email = false then [TG_EMAIL_INVALID]
      else
        match gw with
        | .error e => [TG_CALENDAR_NOT_FOUND e]
        | .ok _ => [TG_USER_DELETED email calendar]
  | _ => [TG_INVALID_ARG_NUM 2]

/-- `__revoke_authz` (tg_handlers.py lines 315-324): delete the credential
row and hand back the fixed report string. -/
def revoke_authz_impl (db : CredDb) (chat_id : Int) : CredDb × String :=
  (delete_credentials db chat_id, TG_REVOKE_AUTHZ)

/-- `revoke_authz` (tg_handlers.py lines 442-450): command handler; sends the
`__revoke_authz` report to the chat. -/
def revoke_authz (db : CredDb) (chat_id : Int) : CredDb × List String :=
  ((revoke_authz_impl db chat_id).1, [(revoke_authz_impl db chat_id).2])

/-! ## Dictionary lemmas -/

theorem pyDictPop_fst {α β : Type} [DecidableEq α] (d : List (α × β)) (k : α) :
    (pyDictPop d k).1 = pyDictLookup d k := by
  induction d with
  | nil => rfl
  | cons hd tl ih =>
      obtain ⟨k', v'⟩ := hd
      by_cases h : k' = k <;> simp [pyDictPop, pyDictLookup, h, ih]

theorem pyDictPop_absent {α β : Type} [DecidableEq α] {d : List (α × β)} {k : α}
    (h : pyDictLookup d k = none) : pyDictPop d k = (none, d) := by
  induction d with
  | nil => rfl
  | cons hd tl ih =>
      obtain ⟨k', v'⟩ := hd
      by_cases hk : k' = k
      · simp [pyDictLookup, hk] at h
      · simp [pyDictLookup, hk] at h
        simp [pyDictPop, hk, ih h]

theorem pyDictPop_set_fresh {α β : Type} [DecidableEq α] {d : List (α × β)} {k : α}
    {v : β} (h : pyDictLookup d k = none) :
    pyDictPop (pyDictSet d k v) k = (some v, d) := by
  induction d with
  | nil => simp [pyDictSet, pyDictPop]
  | cons hd tl ih =>
      obtain ⟨k', v'⟩ := hd
      by_cases hk : k' = k
      · simp [pyDictLookup, hk] at h
      · simp [pyDictLookup, hk] at h
        simp [pyDictSet, pyDictPop, hk, ih h]

theorem pyDictLookup_set_self {α β : Type} [DecidableEq α] (d : List (α × β))
    (k : α) (v : β) : pyDictLookup (pyDictSet d k v) k = some v := by
  induction d with
  | nil => simp [pyDictSet, pyDictLookup]
  | cons hd tl ih =>
      obtain ⟨k', v'⟩ := hd
      by_cases h : k' = k <;> simp [pyDictSet, pyDictLookup, h, ih]

theorem pyDictLookup_of_not_mem {α β : Type} [DecidableEq α] {d : List (α × β)}
    {k : α} (h : k ∉ d.map Prod.fst) : pyDictLookup d k = none := by
  induction d with
  | nil => rfl
  | cons hd tl ih =>
      obtain ⟨k', v'⟩ := hd
      simp only [List.map_cons, List.mem_cons] at h
      push_neg at h
      have hne : k' ≠ k := fun hh => h.1 hh.symm
      simp [pyDictLookup, hne, ih h.2]

theorem pyDictPop_not_mem_of_nodup {α β : Type} [DecidableEq α]
    {d : List (α × β)} {k : α} (h : (d.map Prod.fst).Nodup) :
    pyDictLookup (pyDictPop d k).2 k = none := by
  induction d with
  | nil => rfl
  | cons hd tl ih =>
      obtain ⟨k', v'⟩ := hd
      simp only [List.map_cons, List.nodup_cons] at h
      by_cases hk : k' = k
      · subst hk
        simpa [pyDictPop] using pyDictLookup_of_not_mem h.1
      · simp [pyDictPop, pyDictLookup, hk, ih h.2]

theorem pyDictLookup_append_fresh {α β : Type} [DecidableEq α]
    {d : List (α × β)} {k : α} (v : β) (h : pyDictLookup d k = none) :
    pyDictLookup (d ++ [(k, v)]) k = some v := by
  induction d with
  | nil => simp [pyDictLookup]
  | cons hd tl ih =>
      obtain ⟨k', v'⟩ := hd
      by_cases hk : k' = k
      · simp [pyDictLookup, hk] at h
      · simp [pyDictLookup, hk] at h
        simp [pyDictLookup, hk, ih h]

theorem credLookup_create (db : CredDb) (c : Int) (b : String) :
    credLookup (create_credentials db c b) c = some ((credLookup db c).getD b) := by
  unfold create_credentials credentials_exists
  cases h : credLookup db c with
  | none =>
      simp only [h, Option.isSome_none, if_neg Bool.false_ne_true, Option.getD_none]
      exact pyDictLookup_append_fresh b h
  | some old => simp [h]

/-! ## Claim C1 — at-most-once consumption -/

/-- C1 counterexample: the claim quantifies over every ordering of the two
consumes relative to the one register.  In the ordering consume, consume,
register — the token "t" being registered exactly once — both consumes
return NotFound and no consume succeeds, contradicting "exactly one
successful consume ... regardless of how the two consumes are ordered
relative to the register". -/
theorem C1_counterexample :
    (runOps [] [.consume_op "t", .consume_op "t", .register_op "t" 7]).2 =
      [none, none] := by
  rfl

/-- C1 (amended): for a fresh token `t`, two consumes yield exactly one
success (carrying the registered chat id) and one NotFound whenever at least
one of them is ordered after the register; if both precede the register both
yield NotFound, and a token never registered yields NotFound on every
consume. -/
theorem C1_at_most_once (d : CorrDb) (t : String) (c : Int)
    (h : pyDictLookup d t = none) :
    (runOps d [.register_op t c, .consume_op t, .consume_op t]).2 = [some c, none]
    ∧ (runOps d [.consume_op t, .register_op t c, .consume_op t]).2 = [none, some c]
    ∧ (runOps d [.consume_op t, .consume_op t]).2 = [none, none] := by
  have h1 := pyDictPop_set_fresh (v := c) h
  have h2 := pyDictPop_absent h
  refine ⟨?_, ?_, ?_⟩ <;>
    simp [runOps, register_state, consume_state, h1, h2]

/-- C1 witness: the amended claim evaluated on a store holding an unrelated
token. -/
theorem C1_witness :
    (runOps [("u", 3)] [.register_op "t" 7, .consume_op "t", .consume_op "t"]).2 =
      [some 7, none]
    ∧ (runOps [("u", 3)] [.consume_op "t", .register_op "t" 7, .consume_op "t"]).2 =
      [none, some 7]
    ∧ (runOps [("u", 3)] [.consume_op "t", .consume_op "t"]).2 = [none, none] :=
  C1_at_most_once [("u", 3)] "t" 7 (by decide)

/-! ## Claim C3 — register on a duplicate token -/

/-- C3 counterexample: token "t" is present, mapped to chat 1; registering it
again for chat 2 raises no error (the operation's type has no failure case —
it is a plain dict assignment, tg_handlers.py line 176) and silently
replaces the existing mapping, contradicting "fails with a DuplicateToken
error whenever the token is already present ... never silently
overwrites". -/
theorem C3_counterexample :
    pyDictLookup [("t", (1 : Int))] "t" = some 1
    ∧ register_state [("t", 1)] "t" 2 = [("t", 2)] := by
  exact ⟨rfl, rfl⟩

/-- C3 (amended): `register(token, chatId)` cannot fail; it inserts
unconditionally, and when the token is already present its mapping is
silently overwritten with the new chat id. -/
theorem C3_register_overwrites (d : CorrDb) (t : String) (c : Int) :
    pyDictLookup (register_state d t c) t = some c :=
  pyDictLookup_set_self d t c

/-! ## Claim C10 — idempotent, total revocation -/

/-- C10: revoking authorization always replies with the fixed
`TG_REVOKE_AUTHZ` message whether or not a credential row exists, performs
exactly the unconditional `DELETE WHERE chat_id`, and deleting twice leaves
the credential table exactly as deleting once. -/
theorem C10_revoke_idempotent (db : CredDb) (chat_id : Int) :
    (revoke_authz db chat_id).2 = [TG_REVOKE_AUTHZ]
    ∧ (revoke_authz db chat_id).1 = delete_credentials db chat_id
    ∧ delete_credentials (delete_credentials db chat_id) chat_id =
        delete_credentials db chat_id := by
  refine ⟨rfl, rfl, ?_⟩
  simp [delete_credentials, List.filter_filter]

/-! ## Dispatcher lemmas -/

theorem stepState_of_cont {s : DispState} {m : IpcData} {s' : DispState}
    (h : webauth_step s m = .cont s') : stepState s m = s' := by
  simp [stepState, h]

theorem cont_of_stepIsCont {s : DispState} {m : IpcData}
    (h : stepIsCont s m = true) : webauth_step s m = .cont (stepState s m) := by
  unfold stepIsCont at h
  cases hw : webauth_step s m with
  | cont s' => rw [stepState_of_cont hw]
  | exit s' => rw [hw] at h; simp at h
  | crash s' => rw [hw] at h; simp at h

theorem stepIsCont_of_wellShaped (s : DispState) (m : IpcData)
    (h1 : isShutdown m = false) (h2 : wellShaped m = true) :
    stepIsCont s m = true := by
  cases m with
  | boolMsg b => simp [isShutdown] at h1
  | otherMsg t => rfl
  | dictMsg st cr =>
      cases st with
      | none => simp [wellShaped] at h2
      | some state =>
          unfold stepIsCont webauth_step
          cases hp : (consume_state s.bot_data state).1 <;> cases cr <;> simp [hp]

theorem step_cont_of_record (s : DispState) (m : IpcData)
    (h : isHandoffRecord m = true) : webauth_step s m = .cont (stepState s m) := by
  apply cont_of_stepIsCont
  apply stepIsCont_of_wellShaped
  · cases m with
    | boolMsg b => simp [isHandoffRecord] at h
    | otherMsg t => rfl
    | dictMsg st cr => rfl
  · cases m with
    | boolMsg b => simp [isHandoffRecord] at h
    | otherMsg t => rfl
    | dictMsg st cr =>
        cases st with
        | none => simp [isHandoffRecord] at h
        | some state => rfl

theorem webauth_run_append (msgs : List IpcData) (s : DispState)
    (l : List IpcData) (h : ∀ m ∈ msgs, isHandoffRecord m = true) :
    webauth_run s (msgs ++ l) = webauth_run (msgs.foldl stepState s) l := by
  induction msgs generalizing s with
  | nil => rfl
  | cons m ms ih =>
      have hc := step_cont_of_record s m (h m (by simp))
      simp only [List.cons_append, webauth_run, hc, List.foldl_cons]
      exact ih (stepState s m) fun m' hm' => h m' (by simp [hm'])

/-! ## Claim C2 — only Shutdown terminates the receive loop -/

/-- C2 counterexample: a dict lacking the `state` key is not the shutdown
sentinel, yet `ipc_data[gcal.STATE_KEY]` (tg_handlers.py line 684) raises an
uncaught `KeyError` and the receive loop does not proceed to the next
message — it dies, contradicting "any message of unrecognized shape (wrong
type, or a record missing expected fields) is logged and dropped". -/
theorem C2_counterexample :
    isShutdown (IpcData.dictMsg none none) = false
    ∧ stepIsCont emptyDisp (IpcData.dictMsg none none) = false := by
  exact ⟨rfl, rfl⟩

/-- C2 (amended): no message other than the bool shutdown sentinel
terminates the receive loop, PROVIDED it is not a dict record missing the
`state` field; messages of wrong top-level type are logged and dropped, and
a record missing only the `credentials` field is handled as a denial.  A
dict without `state` raises an uncaught `KeyError` that kills the loop. -/
theorem C2_loop_survives (s : DispState) (m : IpcData)
    (h1 : isShutdown m = false) (h2 : wellShaped m = true) :
    stepIsCont s m = true :=
  stepIsCont_of_wellShaped s m h1 h2

/-- C2 witness: an arbitrary non-dict, non-bool queue element (a python
object of some other type) is dropped and the loop continues. -/
theorem C2_witness : stepIsCont emptyDisp (IpcData.otherMsg "int") = true :=
  C2_loop_survives emptyDisp (IpcData.otherMsg "int") rfl rfl

/-! ## Claim C4 — Granted handling for a registered token -/

/-- C4 counterexample: token "t" is registered to chat 5 and chat 5 already
holds a credential row "old"; delivering `Granted{token="t",
credentialBlob="new"}` leaves the row at "old" because `create_credentials`
(database.py lines 22-23) is a no-op when a row exists — the CredentialRecord
for the chat does not end up holding blob B, contradicting the claim. -/
theorem C4_counterexample :
    pyDictLookup (DispState.mk [("t", 5)] [(5, "old")] [] []).bot_data "t" = some 5
    ∧ credLookup (stepState ⟨[("t", 5)], [(5, "old")], [], []⟩
        (IpcData.dictMsg (some "t") (some "new"))).db 5 ≠ some "new" := by
  refine ⟨rfl, by decide⟩

/-- C4 (amended): on `Granted{token, credentialBlob}` for a registered token
the dispatcher removes the token from the correlation store, passes the blob
to `create_credentials`, and notifies the chat with "authorization
complete"; the store no longer contains the token afterwards, and the
resulting credential row holds the delivered blob exactly when the chat had
no pre-existing row (a pre-existing row is left unchanged). -/
theorem C4_granted (s : DispState) (t : String) (c : Int) (b : String)
    (h : pyDictLookup s.bot_data t = some c)
    (hnd : (s.bot_data.map Prod.fst).Nodup) :
    webauth_step s (IpcData.dictMsg (some t) (some b)) =
      .cont { s with bot_data := (pyDictPop s.bot_data t).2,
                     db := create_credentials s.db c b,
                     sent := s.sent ++ [(c, TG_AUTH_COMPLETE)] }
    ∧ pyDictLookup (pyDictPop s.bot_data t).2 t = none
    ∧ credLookup (create_credentials s.db c b) c =
        some ((credLookup s.db c).getD b) := by
  have hfst : (pyDictPop s.bot_data t).1 = some c := by
    rw [pyDictPop_fst]; exact h
  refine ⟨?_, pyDictPop_not_mem_of_nodup hnd, credLookup_create s.db c b⟩
  unfold webauth_step
  simp [consume_state, hfst]

/-- C4 witness: a single registered token and an empty credential table; the
granted outcome consumes the token, creates the row with the delivered blob
and notifies the chat. -/
theorem C4_witness :
    webauth_step ⟨[("t", 5)], [], [], []⟩ (IpcData.dictMsg (some "t") (some "blob")) =
      .cont ⟨[], [(5, "blob")], [(5, TG_AUTH_COMPLETE)], []⟩
    ∧ pyDictLookup (pyDictPop [("t", (5 : Int))] "t").2 "t" = none
    ∧ credLookup (create_credentials [] 5 "blob") 5 =
        some ((credLookup [] 5).getD "blob") :=
  C4_granted ⟨[("t", 5)], [], [], []⟩ "t" 5 "blob" (by decide) (by decide)

/-! ## Claim C7 — shutdown determinism -/

/-- C7: for any N handoff records (the channel's non-Shutdown message
shapes, `Granted`/`Denied` — dicts carrying the `state` key) followed by the
bool shutdown sentinel, the receive loop folds exactly over those records in
FIFO order, then exits, leaving everything enqueued after the sentinel
unprocessed. -/
theorem C7_shutdown_determinism (s : DispState) (msgs : List IpcData) (b : Bool)
    (rest : List IpcData) (h : ∀ m ∈ msgs, isHandoffRecord m = true) :
    webauth_run s (msgs ++ IpcData.boolMsg b :: rest) =
      .exited (msgs.foldl stepState s) rest := by
  rw [webauth_run_append msgs s _ h]
  rfl

/-- C7 witness: a denied and a granted record, the sentinel, then one more
queue element that is never processed. -/
theorem C7_witness :
    webauth_run emptyDisp
        ([IpcData.dictMsg (some "t1") none, IpcData.dictMsg (some "t2") (some "cred")] ++
          IpcData.boolMsg true :: [IpcData.otherMsg "str"]) =
      .exited
        ([IpcData.dictMsg (some "t1") none,
          IpcData.dictMsg (some "t2") (some "cred")].foldl stepState emptyDisp)
        [IpcData.otherMsg "str"] :=
  C7_shutdown_determinism emptyDisp _ true _ (by decide)

/-! ## Claim C5 — second `/start` while a session is active -/

/-- C5 counterexample: a chat with credentials has an active session in
`STATE_ADD_SHARE` (AwaitShareEmail: prompt message 2, initiating message 1,
pending calendar "cal").  A second `/start` typed as a command leaves the
session dict untouched and replies pointing at the prompt, but the handler
returns `STATE_CALENDAR_SELECTION`, which the dispatch layer stores as the
conversation's new current state — so the existing session's current state
does NOT stay unchanged: AwaitShareEmail is reset to SelectCalendar. -/
theorem C5_counterexample :
    (start [((5 : Int), "cr")] ("u", "s") ["cal"] [] ⟨some 1, some 2, some "cal"⟩ 5
        (.message 10) 11).chat_data = ⟨some 1, some 2, some "cal"⟩
    ∧ (start [((5 : Int), "cr")] ("u", "s") ["cal"] [] ⟨some 1, some 2, some "cal"⟩ 5
        (.message 10) 11).ret = .STATE_CALENDAR_SELECTION
    ∧ PtbState.STATE_CALENDAR_SELECTION ≠ PtbState.STATE_ADD_SHARE := by
  exact ⟨rfl, rfl, by decide⟩

/-- C5 (amended): a second `/start` typed as a command while a session is
active (prompt message id cached) creates no second session — the session
dict (message ids, pending calendar) and the correlation store are
untouched, the only effect is one reply pointing at the existing prompt
message — but the handler returns `STATE_CALENDAR_SELECTION`, which becomes
the conversation's current state (resetting any deeper dialogue state). -/
theorem C5_second_start (db : CredDb) (authz : String × String)
    (cals : List String) (bd : CorrDb) (cd : ChatData) (chat_id : Int)
    (mid nid m : Int) (h1 : credentials_exists db chat_id = true)
    (h2 : cd.inline_msg = some m) :
    start db authz cals bd cd chat_id (.message mid) nid =
      { bot_data := bd, chat_data := cd, ret := .STATE_CALENDAR_SELECTION,
        sent := [{ chat := chat_id, text := TG_KEYBOARD_ACTIVE, reply_to := some m }],
        edited := false } := by
  unfold start
  simp [h1, h2]

/-- C5 witness: the amended claim evaluated on a concrete active session. -/
theorem C5_witness :
    start [((5 : Int), "cr")] ("u", "s") ["c1"] [("t", 5)] ⟨some 1, some 2, none⟩ 5
        (.message 10) 11 =
      { bot_data := [("t", 5)], chat_data := ⟨some 1, some 2, none⟩,
        ret := .STATE_CALENDAR_SELECTION,
        sent := [{ chat := 5, text := TG_KEYBOARD_ACTIVE, reply_to := some 2 }],
        edited := false } :=
  C5_second_start [(5, "cr")] ("u", "s") ["c1"] [("t", 5)]
    ⟨some 1, some 2, none⟩ 5 10 11 2 (by decide) rfl

/-! ## Claim C6 — the e-mail gate -/

/-- C6: in `STATE_ADD_SHARE` (AwaitShareEmail) and `STATE_DELETE_SHARE`
(AwaitDeleteEmail), a text that fails the e-mail format check leaves the
handler returning the very same state with the session dict unchanged and
re-renders the "enter an e-mail" prompt; a passing text moves
AwaitShareEmail to the role keyboard (`STATE_ADD_SHARE_ROLE`) and
AwaitDeleteEmail — after the gateway revocation succeeds — to
`STATE_ACTION_SELECTION`, popping the cached calendar.  The inequality
hypotheses state that the forward renders differ from the current prompt
content (always the case in the normal flow, where the current content is
the e-mail prompt). -/
theorem C6_email_gate (validEmail : String → Bool) (gw : Except String Unit)
    (cd : ChatData) (ti tv : String) (cur : MsgContent) (m : Int) (cal : String)
    (h1 : cd.inline_msg = some m) (h2 : cd.calendar_name = some cal)
    (h3 : validEmail ti = false) (h4 : validEmail tv = true)
    (h5 : (⟨PROMPT_CHOOSE_ROLE tv cal, some (add_share_keyboard cal tv)⟩ : MsgContent) ≠ cur)
    (h6 : gw = .ok ())
    (h7 : (⟨TG_USER_DELETED tv cal, some (default_keyboard cal)⟩ : MsgContent) ≠ cur) :
    add_share_inline_email validEmail cd ti cur =
      .ok { chat_data := cd, ret := .STATE_ADD_SHARE,
            content := ⟨PROMPT_NOT_EMAIL, some (default_keyboard cal)⟩,
            edited := if (⟨PROMPT_NOT_EMAIL, some (default_keyboard cal)⟩ : MsgContent) = cur
                      then false else true }
    ∧ delete_share_inline_email validEmail gw cd ti cur =
      .ok { chat_data := cd, ret := .STATE_DELETE_SHARE,
            content := ⟨PROMPT_NOT_EMAIL, some (default_keyboard cal)⟩,
            edited := if (⟨PROMPT_NOT_EMAIL, some (default_keyboard cal)⟩ : MsgContent) = cur
                      then false else true }
    ∧ add_share_inline_email validEmail cd tv cur =
      .ok { chat_data := cd, ret := .STATE_ADD_SHARE_ROLE,
            content := ⟨PROMPT_CHOOSE_ROLE tv cal, some (add_share_keyboard cal tv)⟩,
            edited := true }
    ∧ delete_share_inline_email validEmail gw cd tv cur =
      .ok { chat_data := { cd with calendar_name := none },
            ret := .STATE_ACTION_SELECTION,
            content := ⟨TG_USER_DELETED tv cal, some (default_keyboard cal)⟩,
            edited := true } := by
  subst h6
  refine ⟨?_, ?_, ?_, ?_⟩ <;>
    simp [add_share_inline_email, delete_share_inline_email, h1, h2, h3, h4, h5, h7]

/-- C6 witness: both handlers on the invalid input "x" and the valid input
"a@b.c", from a session awaiting an e-mail for calendar "cal". -/
theorem C6_witness :
    add_share_inline_email (fun s => s == "a@b.c") ⟨some 1, some 2, some "cal"⟩ "x" ⟨"", none⟩ =
      .ok { chat_data := ⟨some 1, some 2, some "cal"⟩, ret := .STATE_ADD_SHARE,
            content := ⟨PROMPT_NOT_EMAIL, some (default_keyboard "cal")⟩, edited := true }
    ∧ delete_share_inline_email (fun s => s == "a@b.c") (.ok ())
        ⟨some 1, some 2, some "cal"⟩ "x" ⟨"", none⟩ =
      .ok { chat_data := ⟨some 1, some 2, some "cal"⟩, ret := .STATE_DELETE_SHARE,
            content := ⟨PROMPT_NOT_EMAIL, some (default_keyboard "cal")⟩, edited := true }
    ∧ add_share_inline_email (fun s => s == "a@b.c") ⟨some 1, some 2, some "cal"⟩ "a@b.c" ⟨"", none⟩ =
      .ok { chat_data := ⟨some 1, some 2, some "cal"⟩, ret := .STATE_ADD_SHARE_ROLE,
            content := ⟨PROMPT_CHOOSE_ROLE "a@b.c" "cal", some (add_share_keyboard "cal" "a@b.c")⟩,
            edited := true }
    ∧ delete_share_inline_email (fun s => s == "a@b.c") (.ok ())
        ⟨some 1, some 2, some "cal"⟩ "a@b.c" ⟨"", none⟩ =
      .ok { chat_data := ⟨some 1, some 2, none⟩, ret := .STATE_ACTION_SELECTION,
            content := ⟨TG_USER_DELETED "a@b.c" "cal", some (default_keyboard "cal")⟩,
            edited := true } :=
  C6_email_gate (fun s => s == "a@b.c") (.ok ()) ⟨some 1, some 2, some "cal"⟩
    "x" "a@b.c" ⟨"", none⟩ 2 "cal" rfl rfl (by decide) (by decide) (by decide) rfl (by decide)

/-! ## Claim C8 — provider errors -/

/-- C8 counterexample: the conversation-dialogue handler
`show_share_inline` does not wrap its gateway call in try/except
(tg_handlers.py lines 470-485, unlike the direct commands); an `HttpError`
with provider detail escapes the handler, and no reply carrying the detail
is sent to the chat — contradicting "direct commands and
conversation-dialogue handlers alike" surface the provider detail. -/
theorem C8_counterexample :
    show_share_inline ("show_share_inline" ++ "#" ++ "c") (.error "calendar detail")
      ⟨"", none⟩ = .raised := by
  rfl

/-- C8 (amended): the direct commands `show_share`, `add_share` and
`delete_share` surface the provider-supplied detail in the
`TG_CALENDAR_NOT_FOUND` reply, send nothing else, perform no retry and touch
no session state (they never read or write `chat_data`); the inline dialogue
handlers instead let the provider error escape uncaught. -/
theorem C8_direct_commands_surface (validEmail : String → Bool)
    (e cal email role : String) (h1 : validEmail email = true)
    (h2 : (GCAL_MAP.map Prod.fst).contains role = true) :
    show_share [cal] (.error e) = [TG_CALENDAR_NOT_FOUND e]
    ∧ add_share [cal, email, role] validEmail (.error e) = [TG_CALENDAR_NOT_FOUND e]
    ∧ delete_share [cal, email] validEmail (.error e) = [TG_CALENDAR_NOT_FOUND e] := by
  refine ⟨rfl, ?_, ?_⟩
  · simp only [add_share, h1, h2]
    rfl
  · simp only [delete_share, h1]
    rfl

/-- C8 witness: the three direct commands on a failing gateway call with
detail "err". -/
theorem C8_witness :
    show_share ["c"] (.error "err") = [TG_CALENDAR_NOT_FOUND "err"]
    ∧ add_share ["c", "a@b.c", "reader"] (fun _ => true) (.error "err") =
        [TG_CALENDAR_NOT_FOUND "err"]
    ∧ delete_share ["c", "a@b.c"] (fun _ => true) (.error "err") =
        [TG_CALENDAR_NOT_FOUND "err"] :=
  C8_direct_commands_surface (fun _ => true) "err" "c" "a@b.c" "reader" rfl (by decide)

/-! ## Claim C9 — redundant keyboard edits -/

/-- C9 counterexample: `select_calendar_inline` re-renders the action
keyboard without a try/except around `edit_message_text` (tg_handlers.py
line 466); pressing "back" to calendar "c" when the message already shows
the action prompt for "c" makes Telegram raise `BadRequest`, which escapes
the handler — contradicting "every event handler that re-renders the
keyboard message" treats an identical-content edit as success. -/
theorem C9_counterexample :
    select_calendar_inline ("select_calendar_inline" ++ "#" ++ "c")
      ⟨PROMPT_CHOOSE_ACTION "c", some (calendar_keyboard "c")⟩ = .raised := by
  rfl

/-- C9 (amended): only the handlers that wrap the edit in
try/except `BadRequest` treat an identical-content edit as success: the
`start` button path (tg_handlers.py lines 214-217) and the invalid-e-mail
re-prompts of `add_share_inline_email` (lines 525-529) and
`delete_share_inline_email` (lines 611-615).  Other re-rendering handlers
(e.g. `select_calendar_inline`) let the `BadRequest` escape. -/
theorem C9_swallowed_edits (db : CredDb) (authz : String × String)
    (cals : List String) (bd : CorrDb) (cd : ChatData) (chat_id nid : Int)
    (validEmail : String → Bool) (text : String) (m : Int) (cal : String)
    (gw : Except String Unit)
    (h1 : credentials_exists db chat_id = true)
    (h2 : cd.inline_msg = some m) (h3 : cd.calendar_name = some cal)
    (h4 : validEmail text = false) :
    start db authz cals bd cd chat_id
        (.callback ⟨PROMPT_INITIAL_MENU, some (start_keyboard cals)⟩) nid =
      { bot_data := bd, chat_data := cd, ret := .STATE_CALENDAR_SELECTION,
        sent := [], edited := false }
    ∧ add_share_inline_email validEmail cd text
        ⟨PROMPT_NOT_EMAIL, some (default_keyboard cal)⟩ =
      .ok { chat_data := cd, ret := .STATE_ADD_SHARE,
            content := ⟨PROMPT_NOT_EMAIL, some (default_keyboard cal)⟩, edited := false }
    ∧ delete_share_inline_email validEmail gw cd text
        ⟨PROMPT_NOT_EMAIL, some (default_keyboard cal)⟩ =
      .ok { chat_data := cd, ret := .STATE_DELETE_SHARE,
            content := ⟨PROMPT_NOT_EMAIL, some (default_keyboard cal)⟩, edited := false } := by
  refine ⟨?_, ?_, ?_⟩
  · unfold start
    simp [h1]
  · simp [add_share_inline_email, h2, h3, h4]
  · simp [delete_share_inline_email, h2, h3, h4]

/-- C9 witness: the three swallowing edit sites on concrete redundant
content. -/
theorem C9_witness :
    start [((5 : Int), "cr")] ("u", "s") ["c1"] [] ⟨some 1, some 2, some "cal"⟩ 5
        (.callback ⟨PROMPT_INITIAL_MENU, some (start_keyboard ["c1"])⟩) 11 =
      { bot_data := [], chat_data := ⟨some 1, some 2, some "cal"⟩,
        ret := .STATE_CALENDAR_SELECTION, sent := [], edited := false }
    ∧ add_share_inline_email (fun _ => false) ⟨some 1, some 2, some "cal"⟩ "x"
        ⟨PROMPT_NOT_EMAIL, some (default_keyboard "cal")⟩ =
      .ok { chat_data := ⟨some 1, some 2, some "cal"⟩, ret := .STATE_ADD_SHARE,
            content := ⟨PROMPT_NOT_EMAIL, some (default_keyboard "cal")⟩, edited := false }
    ∧ delete_share_inline_email (fun _ => false) (.ok ()) ⟨some 1, some 2, some "cal"⟩ "x"
        ⟨PROMPT_NOT_EMAIL, some (default_keyboard "cal")⟩ =
      .ok { chat_data := ⟨some 1, some 2, some "cal"⟩, ret := .STATE_DELETE_SHARE,
            content := ⟨PROMPT_NOT_EMAIL, some (default_keyboard "cal")⟩, edited := false } :=
  C9_swallowed_edits [(5, "cr")] ("u", "s") ["c1"] [] ⟨some 1, some 2, some "cal"⟩ 5 11
    (fun _ => false) "x" 2 "cal" (.ok ()) (by decide) rfl rfl rfl

end GCalBot
